import Mathlib

/-!
Verification of the deterministic logic of `dataapp_supervivencia.py`:
the individual risk scorer (`calcular_score_riesgo`), the category /
probability logic of the predictor view (`mostrar_predictor`), and the
data-normalization pipeline (`procesar_datos`, `crear_datos_ejemplo`,
`cargar_datos`).

Numeric values are modelled as rationals (`ℚ`); Python's `round(x, 2)` is
modelled by `round2`.  All score increments are multiples of 1/10, where
Python's banker's rounding and ordinary rounding agree, so the choice of
rounding mode for `round2` is immaterial on reachable scores (and is in
fact proved away: the rounded score always equals the raw sum).
-/

/-- Python's `round(x, 2)`: round `100 * x` to the nearest integer and
divide by 100.  On the scores reachable in this program (multiples of
1/10) it is the identity, so the tie-breaking mode does not matter. -/
def round2 (q : ℚ) : ℚ := ((round (100 * q) : ℤ) : ℚ) / 100

/-- Embedding of `calcular_score_riesgo` (src/dataapp_supervivencia.py,
lines 102-176): a sequentially accumulated banded additive score over the
eleven inputs, returned rounded to two decimal places.  Each `let score :=`
mirrors one `if/elif` block of the source. -/
def calcular_score_riesgo (edad ct_blood bmi : ℚ) (genero : String)
    (temperatura : ℚ) (tos escalofrios dolores vomitos dificultad_respiratoria : String)
    (saturacion_oxigeno : ℚ) : ℚ :=
  let score : ℚ := 0
  let score := if edad ≥ 60 then score + 3.0 else if edad ≥ 40 then score + 2.0
    else if edad ≥ 18 then score + 1.0 else score
  let score := if ct_blood < 20 then score + 2.5 else if ct_blood < 22 then score + 1.5
    else if ct_blood < 24 then score + 0.5 else score
  let score := if bmi > 35 then score + 2.0 else if bmi > 30 then score + 1.0
    else if bmi < 18.5 then score + 1.0 else score
  let score := if genero = "Masculino" then score + 0.5 else score
  let score := if temperatura ≥ 38.5 then score + 2.0 else if temperatura ≥ 38.0 then score + 1.5
    else if temperatura ≥ 37.5 then score + 1.0 else score
  let score := if tos = "Severa" then score + 1.5 else if tos = "Moderada" then score + 1.0
    else if tos = "Leve" then score + 0.5 else score
  let score := if escalofrios = "Sí" then score + 0.8 else score
  let score := if dolores = "Severos" then score + 1.2 else if dolores = "Moderados" then score + 0.8
    else if dolores = "Leves" then score + 0.4 else score
  let score := if vomitos = "Sí" then score + 0.7 else score
  let score := if dificultad_respiratoria = "Severa" then score + 2.5
    else if dificultad_respiratoria = "Moderada" then score + 1.5
    else if dificultad_respiratoria = "Leve" then score + 0.8 else score
  let score := if saturacion_oxigeno < 90 then score + 3.0 else if saturacion_oxigeno < 93 then score + 2.0
    else if saturacion_oxigeno < 95 then score + 1.0 else score
  round2 score

/-! Per-factor band functions, written from the banded table of spec §4.2:
each factor independently contributes the increment of its highest
applicable band, bands checked in descending severity order, first match
applied, 0 when no band matches. -/

/-- Spec §4.2 band row for age: ≥60→+3.0; ≥40→+2.0; ≥18→+1.0; else 0. -/
def bandaEdad (edad : ℚ) : ℚ :=
  if edad ≥ 60 then 3.0 else if edad ≥ 40 then 2.0 else if edad ≥ 18 then 1.0 else 0

/-- Spec §4.2 band row for blood-cell-count: <20→+2.5; <22→+1.5; <24→+0.5; else 0. -/
def bandaCtBlood (ct_blood : ℚ) : ℚ :=
  if ct_blood < 20 then 2.5 else if ct_blood < 22 then 1.5 else if ct_blood < 24 then 0.5 else 0

/-- Spec §4.2 band row for BMI: >35→+2.0; >30→+1.0; <18.5→+1.0; else 0. -/
def bandaBmi (bmi : ℚ) : ℚ :=
  if bmi > 35 then 2.0 else if bmi > 30 then 1.0 else if bmi < 18.5 then 1.0 else 0

/-- Spec §4.2 band row for gender: male→+0.5; else 0. -/
def bandaGenero (genero : String) : ℚ :=
  if genero = "Masculino" then 0.5 else 0

/-- Spec §4.2 band row for temperature: ≥38.5→+2.0; ≥38.0→+1.5; ≥37.5→+1.0; else 0. -/
def bandaTemperatura (temperatura : ℚ) : ℚ :=
  if temperatura ≥ 38.5 then 2.0 else if temperatura ≥ 38.0 then 1.5
  else if temperatura ≥ 37.5 then 1.0 else 0

/-- Spec §4.2 band row for cough severity: Severe→+1.5; Moderate→+1.0; Mild→+0.5; else 0. -/
def bandaTos (tos : String) : ℚ :=
  if tos = "Severa" then 1.5 else if tos = "Moderada" then 1.0 else if tos = "Leve" then 0.5 else 0

/-- Spec §4.2 band row for chills: present→+0.8; else 0. -/
def bandaEscalofrios (escalofrios : String) : ℚ :=
  if escalofrios = "Sí" then 0.8 else 0

/-- Spec §4.2 band row for body pain: Severe→+1.2; Moderate→+0.8; Mild→+0.4; else 0. -/
def bandaDolores (dolores : String) : ℚ :=
  if dolores = "Severos" then 1.2 else if dolores = "Moderados" then 0.8
  else if dolores = "Leves" then 0.4 else 0

/-- Spec §4.2 band row for vomiting: present→+0.7; else 0. -/
def bandaVomitos (vomitos : String) : ℚ :=
  if vomitos = "Sí" then 0.7 else 0

/-- Spec §4.2 band row for respiratory distress: Severe→+2.5; Moderate→+1.5; Mild→+0.8; else 0. -/
def bandaRespiratoria (dificultad_respiratoria : String) : ℚ :=
  if dificultad_respiratoria = "Severa" then 2.5 else if dificultad_respiratoria = "Moderada" then 1.5
  else if dificultad_respiratoria = "Leve" then 0.8 else 0

/-- Spec §4.2 band row for oxygen saturation: <90→+3.0; <93→+2.0; <95→+1.0; else 0. -/
def bandaSaturacion (saturacion_oxigeno : ℚ) : ℚ :=
  if saturacion_oxigeno < 90 then 3.0 else if saturacion_oxigeno < 93 then 2.0
  else if saturacion_oxigeno < 95 then 1.0 else 0

/-- The additive point system of spec §4.2: the sum of the eleven
independent per-factor band increments (pre-rounding). -/
def sumaBandas (edad ct_blood bmi : ℚ) (genero : String)
    (temperatura : ℚ) (tos escalofrios dolores vomitos dificultad_respiratoria : String)
    (saturacion_oxigeno : ℚ) : ℚ :=
  bandaEdad edad + bandaCtBlood ct_blood + bandaBmi bmi + bandaGenero genero +
    bandaTemperatura temperatura + bandaTos tos + bandaEscalofrios escalofrios +
    bandaDolores dolores + bandaVomitos vomitos + bandaRespiratoria dificultad_respiratoria +
    bandaSaturacion saturacion_oxigeno

/-- Embedding of the probability estimate of `mostrar_predictor`
(line 278): `min(0.95, max(0.05, score / 15))`. -/
def probabilidad (score : ℚ) : ℚ := min 0.95 (max 0.05 (score / 15))

/-- Embedding of the risk-category branch of `mostrar_predictor`
(lines 281-288): category, display color and recommendation text,
thresholds on the (unclamped) score checked highest-first. -/
def clasificar (score : ℚ) : String × String × String :=
  if score ≥ 10 then
    ("ALTO RIESGO", "red", "🚨 URGENCIA MÉDICA INMEDIATA - POSIBLE INGRESO A UCI")
  else if score ≥ 7 then
    ("RIESGO MODERADO-ALTO", "orange", "⚠️ HOSPITALIZACIÓN RECOMENDADA - MONITORIZACIÓN CONTINUA")
  else if score ≥ 4 then
    ("RIESGO MODERADO", "yellow", "📋 OBSERVACIÓN HOSPITALARIA - EVALUACIÓN PERIÓDICA")
  else
    ("BAJO RIESGO", "green", "✅ SEGUIMIENTO AMBULATORIO - CONTROL DOMICILIARIO")

/-! ## Data normalizer

A pandas DataFrame is modelled column-wise: a column is `none` when absent
from the table and `some l` (one value per row) when present.  The numpy
random draws used to backfill absent columns are modelled by explicit
streams of values, one stream per draw site, collected in `RandomSource`
(a `Bool` stream for a binary `choice`, a `ℕ` stream for `randint` /
integer `choice`, a `ℚ` stream for `uniform`). -/

/-- One stream per random draw site of the program.  The `s`-prefixed
streams feed `crear_datos_ejemplo`'s seeded generator; the rest feed the
per-column backfills of `procesar_datos`.  `randint(18, 80)` is modelled
as `18 + s i % 62` and `choice([0,1,2,3])` as `s i % 4`, so the numpy
range guarantees hold by construction. -/
structure RandomSource where
  mortR : ℕ → Bool
  ageRndR : ℕ → ℕ
  bmiR : ℕ → ℚ
  ctR : ℕ → ℚ
  feverR : ℕ → Bool
  coughR : ℕ → Bool
  chillsR : ℕ → Bool
  achesR : ℕ → Bool
  vomitR : ℕ → Bool
  genderR : ℕ → Bool
  clusterR : ℕ → ℕ
  sAge : ℕ → ℕ
  sGender : ℕ → Bool
  sBmi : ℕ → ℚ
  sCt : ℕ → ℚ
  sFever : ℕ → Bool
  sCough : ℕ → Bool
  sChills : ℕ → Bool
  sAches : ℕ → Bool
  sVomit : ℕ → Bool
  sMort : ℕ → Bool

/-- The columns handled by the program (present `some` / absent `none`),
plus the row count `nrows` (pandas `len(base)`). -/
structure Table where
  paciente_id : Option (List ℕ)
  outcome : Option (List String)
  mortalidad : Option (List ℕ)
  age : Option (List ℚ)
  age_years : Option (List ℚ)
  bmi_calculado : Option (List ℚ)
  ct_blood : Option (List ℚ)
  fever : Option (List String)
  cough : Option (List String)
  chills : Option (List String)
  aches : Option (List String)
  vomit : Option (List String)
  gender : Option (List String)
  grupo_edad : Option (List (Option String))
  cluster : Option (List ℕ)
  nrows : ℕ

/-- `if col not in base.columns: base[col] = <draw>`: keep the column when
present, otherwise fill it with one draw per row. -/
def backfill {α : Type} (c : Option (List α)) (n : ℕ) (f : ℕ → α) : List α :=
  match c with
  | some l => l
  | none => (List.range n).map f

/-- The age column `procesar_datos` ends up with (lines 44-49): keep
`age_years` when present, else copy `age` when present, else
`np.random.randint(18, 80)` per row. -/
def agesFinal (r : RandomSource) (base : Table) : List ℚ :=
  match base.age_years with
  | some a => a
  | none => backfill base.age base.nrows (fun i => ((18 + r.ageRndR i % 62 : ℕ) : ℚ))

/-- `pd.cut(age, bins=[0, 18, 40, 60, 100], labels=[...], right=False)`
applied to one age value: right-open bins `[0,18)`, `[18,40)`, `[40,60)`,
`[60,100)`; values outside every bin get `none` (pandas `NaN`). -/
def grupoEdad (a : ℚ) : Option String :=
  if 0 ≤ a ∧ a < 18 then some "0-17"
  else if 18 ≤ a ∧ a < 40 then some "18-39"
  else if 40 ≤ a ∧ a < 60 then some "40-59"
  else if 60 ≤ a ∧ a < 100 then some "60+"
  else none

/-- Embedding of `procesar_datos` (lines 36-78).  `mortalidad` is derived
from `outcome` when that column exists and is otherwise drawn at random —
in both cases regardless of whether `mortalidad` is already present.  The
other backfilled columns are only filled when absent; `grupo_edad` is
always recomputed from the (ensured) age column. -/
def procesar_datos (r : RandomSource) (base : Table) : Table :=
  let n := base.nrows
  let mortalidad : List ℕ :=
    match base.outcome with
    | some os => os.map (fun o => if o = "Death" then 1 else 0)
    | none => (List.range n).map (fun i => if r.mortR i then 1 else 0)
  let age_years : List ℚ := agesFinal r base
  let bmi_calculado : List ℚ := backfill base.bmi_calculado n r.bmiR
  let ct_blood : List ℚ := backfill base.ct_blood n r.ctR
  let fever : List String := backfill base.fever n (fun i => if r.feverR i then "yes" else "no")
  let cough : List String := backfill base.cough n (fun i => if r.coughR i then "yes" else "no")
  let chills : List String := backfill base.chills n (fun i => if r.chillsR i then "yes" else "no")
  let aches : List String := backfill base.aches n (fun i => if r.achesR i then "yes" else "no")
  let vomit : List String := backfill base.vomit n (fun i => if r.vomitR i then "yes" else "no")
  let gender : List String := backfill base.gender n (fun i => if r.genderR i then "m" else "f")
  let grupo_edad : List (Option String) := age_years.map grupoEdad
  let cluster : List ℕ := backfill base.cluster n (fun i => r.clusterR i % 4)
  { paciente_id := base.paciente_id
    outcome := base.outcome
    mortalidad := some mortalidad
    age := base.age
    age_years := some age_years
    bmi_calculado := some bmi_calculado
    ct_blood := some ct_blood
    fever := some fever
    cough := some cough
    chills := some chills
    aches := some aches
    vomit := some vomit
    gender := some gender
    grupo_edad := some grupo_edad
    cluster := some cluster
    nrows := n }

/-- The `datos` dictionary built by `crear_datos_ejemplo` (lines 85-97):
500 wholly synthetic rows, drawn from the seeded numpy stream. -/
def datosEjemploBase (r : RandomSource) : Table :=
  { paciente_id := some ((List.range 500).map (fun i => i + 1))
    outcome := none
    mortalidad := some ((List.range 500).map (fun i => if r.sMort i then 1 else 0))
    age := none
    age_years := some ((List.range 500).map (fun i => ((18 + r.sAge i % 62 : ℕ) : ℚ)))
    bmi_calculado := some ((List.range 500).map r.sBmi)
    ct_blood := some ((List.range 500).map r.sCt)
    fever := some ((List.range 500).map (fun i => if r.sFever i then "yes" else "no"))
    cough := some ((List.range 500).map (fun i => if r.sCough i then "yes" else "no"))
    chills := some ((List.range 500).map (fun i => if r.sChills i then "yes" else "no"))
    aches := some ((List.range 500).map (fun i => if r.sAches i then "yes" else "no"))
    vomit := some ((List.range 500).map (fun i => if r.sVomit i then "yes" else "no"))
    gender := some ((List.range 500).map (fun i => if r.sGender i then "m" else "f"))
    grupo_edad := none
    cluster := none
    nrows := 500 }

/-- Embedding of `crear_datos_ejemplo` (lines 80-100): build the 500-row
synthetic table and normalize it. -/
def crear_datos_ejemplo (r : RandomSource) : Table :=
  procesar_datos r (datosEjemploBase r)

/-- Embedding of `cargar_datos` (lines 22-34).  The attempted Excel read
is modelled by its outcome: `Except.ok base` when the file was read,
`Except.error msg` when reading raised.  On success the table is
normalized; on any error the loader falls back to the synthetic dataset. -/
def cargar_datos (lectura : Except String Table) (r : RandomSource) : Table :=
  match lectura with
  | Except.ok base => procesar_datos r base
  | Except.error _ => crear_datos_ejemplo r

/-- A present column of the right length. -/
def colFull {α : Type} (c : Option (List α)) (n : ℕ) : Bool :=
  match c with
  | some l => l.length == n
  | none => false

/-- Well-formedness of a column: if present, one value per row. -/
def colWf {α : Type} (c : Option (List α)) (n : ℕ) : Bool :=
  match c with
  | some l => l.length == n
  | none => true

/-- Well-formed table: every present column has one value per row (true of
every pandas DataFrame by construction). -/
def Table.wf (t : Table) : Prop :=
  colWf t.paciente_id t.nrows = true ∧ colWf t.outcome t.nrows = true ∧
  colWf t.mortalidad t.nrows = true ∧ colWf t.age t.nrows = true ∧
  colWf t.age_years t.nrows = true ∧ colWf t.bmi_calculado t.nrows = true ∧
  colWf t.ct_blood t.nrows = true ∧ colWf t.fever t.nrows = true ∧
  colWf t.cough t.nrows = true ∧ colWf t.chills t.nrows = true ∧
  colWf t.aches t.nrows = true ∧ colWf t.vomit t.nrows = true ∧
  colWf t.gender t.nrows = true ∧ colWf t.grupo_edad t.nrows = true ∧
  colWf t.cluster t.nrows = true

instance (t : Table) : Decidable t.wf := by unfold Table.wf; infer_instance

/-- The derived age-group column is present, one bucket per row, with no
null bucket. -/
def grupoCheck (t : Table) : Bool :=
  match t.grupo_edad with
  | some g => (g.length == t.nrows) && g.all (fun x => x.isSome)
  | none => false

/-- Every canonical field populated for every record: the canonical
columns are present with one value per row, and every derived age-group
bucket is non-null. -/
def Table.populated (t : Table) : Prop :=
  colFull t.mortalidad t.nrows = true ∧ colFull t.age_years t.nrows = true ∧
  colFull t.bmi_calculado t.nrows = true ∧ colFull t.ct_blood t.nrows = true ∧
  colFull t.fever t.nrows = true ∧ colFull t.cough t.nrows = true ∧
  colFull t.chills t.nrows = true ∧ colFull t.aches t.nrows = true ∧
  colFull t.vomit t.nrows = true ∧ colFull t.gender t.nrows = true ∧
  colFull t.cluster t.nrows = true ∧ grupoCheck t = true

instance (t : Table) : Decidable t.populated := by unfold Table.populated; infer_instance

/-- The age values the normalizer will bucket all lie in the declared
domain `[0, 100)` of the age-group bins: checked on `age_years` when
present, else on `age` when present; the random fallback always lands in
`[18, 80)`. -/
def Table.agesOk (t : Table) : Bool :=
  match t.age_years with
  | some l => l.all (fun a => decide (0 ≤ a) && decide (a < 100))
  | none =>
    match t.age with
    | some l => l.all (fun a => decide (0 ≤ a) && decide (a < 100))
    | none => true

/-! ## Scorer decomposition: the sequential accumulation of
`calcular_score_riesgo` equals the independent sum of band increments. -/

lemma step_edad (s edad : ℚ) :
    (if edad ≥ 60 then s + 3.0 else if edad ≥ 40 then s + 2.0
      else if edad ≥ 18 then s + 1.0 else s) = s + bandaEdad edad := by
  unfold bandaEdad; split_ifs <;> ring

lemma step_ct (s ct_blood : ℚ) :
    (if ct_blood < 20 then s + 2.5 else if ct_blood < 22 then s + 1.5
      else if ct_blood < 24 then s + 0.5 else s) = s + bandaCtBlood ct_blood := by
  unfold bandaCtBlood; split_ifs <;> ring

lemma step_bmi (s bmi : ℚ) :
    (if bmi > 35 then s + 2.0 else if bmi > 30 then s + 1.0
      else if bmi < 18.5 then s + 1.0 else s) = s + bandaBmi bmi := by
  unfold bandaBmi; split_ifs <;> ring

lemma step_genero (s : ℚ) (genero : String) :
    (if genero = "Masculino" then s + 0.5 else s) = s + bandaGenero genero := by
  unfold bandaGenero; split_ifs <;> ring

lemma step_temperatura (s temperatura : ℚ) :
    (if temperatura ≥ 38.5 then s + 2.0 else if temperatura ≥ 38.0 then s + 1.5
      else if temperatura ≥ 37.5 then s + 1.0 else s) = s + bandaTemperatura temperatura := by
  unfold bandaTemperatura; split_ifs <;> ring

lemma step_tos (s : ℚ) (tos : String) :
    (if tos = "Severa" then s + 1.5 else if tos = "Moderada" then s + 1.0
      else if tos = "Leve" then s + 0.5 else s) = s + bandaTos tos := by
  unfold bandaTos; split_ifs <;> ring

lemma step_escalofrios (s : ℚ) (escalofrios : String) :
    (if escalofrios = "Sí" then s + 0.8 else s) = s + bandaEscalofrios escalofrios := by
  unfold bandaEscalofrios; split_ifs <;> ring

lemma step_dolores (s : ℚ) (dolores : String) :
    (if dolores = "Severos" then s + 1.2 else if dolores = "Moderados" then s + 0.8
      else if dolores = "Leves" then s + 0.4 else s) = s + bandaDolores dolores := by
  unfold bandaDolores; split_ifs <;> ring

lemma step_vomitos (s : ℚ) (vomitos : String) :
    (if vomitos = "Sí" then s + 0.7 else s) = s + bandaVomitos vomitos := by
  unfold bandaVomitos; split_ifs <;> ring

lemma step_respiratoria (s : ℚ) (dificultad_respiratoria : String) :
    (if dificultad_respiratoria = "Severa" then s + 2.5
      else if dificultad_respiratoria = "Moderada" then s + 1.5
      else if dificultad_respiratoria = "Leve" then s + 0.8 else s)
      = s + bandaRespiratoria dificultad_respiratoria := by
  unfold bandaRespiratoria; split_ifs <;> ring

lemma step_saturacion (s saturacion_oxigeno : ℚ) :
    (if saturacion_oxigeno < 90 then s + 3.0 else if saturacion_oxigeno < 93 then s + 2.0
      else if saturacion_oxigeno < 95 then s + 1.0 else s)
      = s + bandaSaturacion saturacion_oxigeno := by
  unfold bandaSaturacion; split_ifs <;> ring

lemma calcular_eq_round2_suma (edad ct_blood bmi : ℚ) (genero : String)
    (temperatura : ℚ) (tos escalofrios dolores vomitos dificultad_respiratoria : String)
    (saturacion_oxigeno : ℚ) :
    calcular_score_riesgo edad ct_blood bmi genero temperatura tos escalofrios dolores
        vomitos dificultad_respiratoria saturacion_oxigeno
      = round2 (sumaBandas edad ct_blood bmi genero temperatura tos escalofrios dolores
        vomitos dificultad_respiratoria saturacion_oxigeno) := by
  unfold calcular_score_riesgo sumaBandas
  simp only [step_edad, step_ct, step_bmi, step_genero, step_temperatura, step_tos,
    step_escalofrios, step_dolores, step_vomitos, step_respiratoria, step_saturacion]
  congr 1
  ring

/-! ## Rounding is the identity on reachable scores: every band increment
is a multiple of 1/10, so the total is, and `round(·, 2)` fixes it. -/

lemma round2_tenths (n : ℕ) : round2 ((n : ℚ) / 10) = (n : ℚ) / 10 := by
  unfold round2
  have h : (100 : ℚ) * ((n : ℚ) / 10) = ((10 * n : ℤ) : ℚ) := by push_cast; ring
  rw [h, round_intCast]
  push_cast; ring

lemma bandaEdad_tenths (edad : ℚ) : ∃ n : ℕ, bandaEdad edad = (n : ℚ) / 10 := by
  unfold bandaEdad
  split_ifs
  exacts [⟨30, by norm_num⟩, ⟨20, by norm_num⟩, ⟨10, by norm_num⟩, ⟨0, by norm_num⟩]

lemma bandaCtBlood_tenths (ct_blood : ℚ) : ∃ n : ℕ, bandaCtBlood ct_blood = (n : ℚ) / 10 := by
  unfold bandaCtBlood
  split_ifs
  exacts [⟨25, by norm_num⟩, ⟨15, by norm_num⟩, ⟨5, by norm_num⟩, ⟨0, by norm_num⟩]

lemma bandaBmi_tenths (bmi : ℚ) : ∃ n : ℕ, bandaBmi bmi = (n : ℚ) / 10 := by
  unfold bandaBmi
  split_ifs
  exacts [⟨20, by norm_num⟩, ⟨10, by norm_num⟩, ⟨10, by norm_num⟩, ⟨0, by norm_num⟩]

lemma bandaGenero_tenths (genero : String) : ∃ n : ℕ, bandaGenero genero = (n : ℚ) / 10 := by
  unfold bandaGenero
  split_ifs
  exacts [⟨5, by norm_num⟩, ⟨0, by norm_num⟩]

lemma bandaTemperatura_tenths (temperatura : ℚ) :
    ∃ n : ℕ, bandaTemperatura temperatura = (n : ℚ) / 10 := by
  unfold bandaTemperatura
  split_ifs
  exacts [⟨20, by norm_num⟩, ⟨15, by norm_num⟩, ⟨10, by norm_num⟩, ⟨0, by norm_num⟩]

lemma bandaTos_tenths (tos : String) : ∃ n : ℕ, bandaTos tos = (n : ℚ) / 10 := by
  unfold bandaTos
  split_ifs
  exacts [⟨15, by norm_num⟩, ⟨10, by norm_num⟩, ⟨5, by norm_num⟩, ⟨0, by norm_num⟩]

lemma bandaEscalofrios_tenths (escalofrios : String) :
    ∃ n : ℕ, bandaEscalofrios escalofrios = (n : ℚ) / 10 := by
  unfold bandaEscalofrios
  split_ifs
  exacts [⟨8, by norm_num⟩, ⟨0, by norm_num⟩]

lemma bandaDolores_tenths (dolores : String) : ∃ n : ℕ, bandaDolores dolores = (n : ℚ) / 10 := by
  unfold bandaDolores
  split_ifs
  exacts [⟨12, by norm_num⟩, ⟨8, by norm_num⟩, ⟨4, by norm_num⟩, ⟨0, by norm_num⟩]

lemma bandaVomitos_tenths (vomitos : String) : ∃ n : ℕ, bandaVomitos vomitos = (n : ℚ) / 10 := by
  unfold bandaVomitos
  split_ifs
  exacts [⟨7, by norm_num⟩, ⟨0, by norm_num⟩]

lemma bandaRespiratoria_tenths (dificultad_respiratoria : String) :
    ∃ n : ℕ, bandaRespiratoria dificultad_respiratoria = (n : ℚ) / 10 := by
  unfold bandaRespiratoria
  split_ifs
  exacts [⟨25, by norm_num⟩, ⟨15, by norm_num⟩, ⟨8, by norm_num⟩, ⟨0, by norm_num⟩]

lemma bandaSaturacion_tenths (saturacion_oxigeno : ℚ) :
    ∃ n : ℕ, bandaSaturacion saturacion_oxigeno = (n : ℚ) / 10 := by
  unfold bandaSaturacion
  split_ifs
  exacts [⟨30, by norm_num⟩, ⟨20, by norm_num⟩, ⟨10, by norm_num⟩, ⟨0, by norm_num⟩]

/-- The returned (rounded) score equals the raw band sum: rounding to two
decimals is the identity on multiples of 1/10. -/
lemma calcular_eq_suma (edad ct_blood bmi : ℚ) (genero : String)
    (temperatura : ℚ) (tos escalofrios dolores vomitos dificultad_respiratoria : String)
    (saturacion_oxigeno : ℚ) :
    calcular_score_riesgo edad ct_blood bmi genero temperatura tos escalofrios dolores
        vomitos dificultad_respiratoria saturacion_oxigeno
      = sumaBandas edad ct_blood bmi genero temperatura tos escalofrios dolores
        vomitos dificultad_respiratoria saturacion_oxigeno := by
  rw [calcular_eq_round2_suma]
  obtain ⟨n1, h1⟩ := bandaEdad_tenths edad
  obtain ⟨n2, h2⟩ := bandaCtBlood_tenths ct_blood
  obtain ⟨n3, h3⟩ := bandaBmi_tenths bmi
  obtain ⟨n4, h4⟩ := bandaGenero_tenths genero
  obtain ⟨n5, h5⟩ := bandaTemperatura_tenths temperatura
  obtain ⟨n6, h6⟩ := bandaTos_tenths tos
  obtain ⟨n7, h7⟩ := bandaEscalofrios_tenths escalofrios
  obtain ⟨n8, h8⟩ := bandaDolores_tenths dolores
  obtain ⟨n9, h9⟩ := bandaVomitos_tenths vomitos
  obtain ⟨n10, h10⟩ := bandaRespiratoria_tenths dificultad_respiratoria
  obtain ⟨n11, h11⟩ := bandaSaturacion_tenths saturacion_oxigeno
  have hs : sumaBandas edad ct_blood bmi genero temperatura tos escalofrios dolores
      vomitos dificultad_respiratoria saturacion_oxigeno
      = ((n1 + n2 + n3 + n4 + n5 + n6 + n7 + n8 + n9 + n10 + n11 : ℕ) : ℚ) / 10 := by
    unfold sumaBandas
    rw [h1, h2, h3, h4, h5, h6, h7, h8, h9, h10, h11]
    push_cast; ring
  rw [hs, round2_tenths]

/-! ## Severity indices: a factor's bands in the order they are listed in
the §4.2 table row (descending severity, the catch-all last), numbered so
that a higher index is the band checked earlier / of higher severity. -/

/-- Band index of the age row: else=0 < ≥18 < ≥40 < ≥60. -/
def severidadEdad (edad : ℚ) : ℕ :=
  if edad ≥ 60 then 3 else if edad ≥ 40 then 2 else if edad ≥ 18 then 1 else 0

/-- Band index of the blood-cell-count row: else=0 < <24 < <22 < <20. -/
def severidadCtBlood (ct_blood : ℚ) : ℕ :=
  if ct_blood < 20 then 3 else if ct_blood < 22 then 2 else if ct_blood < 24 then 1 else 0

/-- Band index of the BMI row: else=0 < <18.5 < >30 < >35. -/
def severidadBmi (bmi : ℚ) : ℕ :=
  if bmi > 35 then 3 else if bmi > 30 then 2 else if bmi < 18.5 then 1 else 0

/-- Band index of the gender row: else=0 < male. -/
def severidadGenero (genero : String) : ℕ :=
  if genero = "Masculino" then 1 else 0

/-- Band index of the temperature row: else=0 < ≥37.5 < ≥38.0 < ≥38.5. -/
def severidadTemperatura (temperatura : ℚ) : ℕ :=
  if temperatura ≥ 38.5 then 3 else if temperatura ≥ 38.0 then 2
  else if temperatura ≥ 37.5 then 1 else 0

/-- Band index of the cough row: else=0 < Mild < Moderate < Severe. -/
def severidadTos (tos : String) : ℕ :=
  if tos = "Severa" then 3 else if tos = "Moderada" then 2 else if tos = "Leve" then 1 else 0

/-- Band index of the chills row: else=0 < present. -/
def severidadEscalofrios (escalofrios : String) : ℕ :=
  if escalofrios = "Sí" then 1 else 0

/-- Band index of the body-pain row: else=0 < Mild < Moderate < Severe. -/
def severidadDolores (dolores : String) : ℕ :=
  if dolores = "Severos" then 3 else if dolores = "Moderados" then 2
  else if dolores = "Leves" then 1 else 0

/-- Band index of the vomiting row: else=0 < present. -/
def severidadVomitos (vomitos : String) : ℕ :=
  if vomitos = "Sí" then 1 else 0

/-- Band index of the respiratory-distress row: else=0 < Mild < Moderate < Severe. -/
def severidadRespiratoria (dificultad_respiratoria : String) : ℕ :=
  if dificultad_respiratoria = "Severa" then 3 else if dificultad_respiratoria = "Moderada" then 2
  else if dificultad_respiratoria = "Leve" then 1 else 0

/-- Band index of the oxygen-saturation row: else=0 < <95 < <93 < <90. -/
def severidadSaturacion (saturacion_oxigeno : ℚ) : ℕ :=
  if saturacion_oxigeno < 90 then 3 else if saturacion_oxigeno < 93 then 2
  else if saturacion_oxigeno < 95 then 1 else 0

/-! Each factor's increment is monotone in its severity index. -/

lemma bandaEdad_mono {a b : ℚ} (h : severidadEdad a ≤ severidadEdad b) :
    bandaEdad a ≤ bandaEdad b := by
  unfold severidadEdad at h
  unfold bandaEdad
  split_ifs at h ⊢ <;> first | omega | norm_num

lemma bandaCtBlood_mono {a b : ℚ} (h : severidadCtBlood a ≤ severidadCtBlood b) :
    bandaCtBlood a ≤ bandaCtBlood b := by
  unfold severidadCtBlood at h
  unfold bandaCtBlood
  split_ifs at h ⊢ <;> first | omega | norm_num

lemma bandaBmi_mono {a b : ℚ} (h : severidadBmi a ≤ severidadBmi b) :
    bandaBmi a ≤ bandaBmi b := by
  unfold severidadBmi at h
  unfold bandaBmi
  split_ifs at h ⊢ <;> first | omega | norm_num

lemma bandaGenero_mono {a b : String} (h : severidadGenero a ≤ severidadGenero b) :
    bandaGenero a ≤ bandaGenero b := by
  unfold severidadGenero at h
  unfold bandaGenero
  split_ifs at h ⊢ <;> first | omega | norm_num

lemma bandaTemperatura_mono {a b : ℚ} (h : severidadTemperatura a ≤ severidadTemperatura b) :
    bandaTemperatura a ≤ bandaTemperatura b := by
  unfold severidadTemperatura at h
  unfold bandaTemperatura
  split_ifs at h ⊢ <;> first | omega | norm_num

lemma bandaTos_mono {a b : String} (h : severidadTos a ≤ severidadTos b) :
    bandaTos a ≤ bandaTos b := by
  unfold severidadTos at h
  unfold bandaTos
  split_ifs at h ⊢ <;> first | omega | norm_num

lemma bandaEscalofrios_mono {a b : String} (h : severidadEscalofrios a ≤ severidadEscalofrios b) :
    bandaEscalofrios a ≤ bandaEscalofrios b := by
  unfold severidadEscalofrios at h
  unfold bandaEscalofrios
  split_ifs at h ⊢ <;> first | omega | norm_num

lemma bandaDolores_mono {a b : String} (h : severidadDolores a ≤ severidadDolores b) :
    bandaDolores a ≤ bandaDolores b := by
  unfold severidadDolores at h
  unfold bandaDolores
  split_ifs at h ⊢ <;> first | omega | norm_num

lemma bandaVomitos_mono {a b : String} (h : severidadVomitos a ≤ severidadVomitos b) :
    bandaVomitos a ≤ bandaVomitos b := by
  unfold severidadVomitos at h
  unfold bandaVomitos
  split_ifs at h ⊢ <;> first | omega | norm_num

lemma bandaRespiratoria_mono {a b : String}
    (h : severidadRespiratoria a ≤ severidadRespiratoria b) :
    bandaRespiratoria a ≤ bandaRespiratoria b := by
  unfold severidadRespiratoria at h
  unfold bandaRespiratoria
  split_ifs at h ⊢ <;> first | omega | norm_num

lemma bandaSaturacion_mono {a b : ℚ} (h : severidadSaturacion a ≤ severidadSaturacion b) :
    bandaSaturacion a ≤ bandaSaturacion b := by
  unfold severidadSaturacion at h
  unfold bandaSaturacion
  split_ifs at h ⊢ <;> first | omega | norm_num

/-! Each factor's increment is bounded by 0 below and its top band above. -/

lemma bandaEdad_bounds (edad : ℚ) : 0 ≤ bandaEdad edad ∧ bandaEdad edad ≤ 3.0 := by
  unfold bandaEdad; split_ifs <;> norm_num

lemma bandaCtBlood_bounds (ct_blood : ℚ) :
    0 ≤ bandaCtBlood ct_blood ∧ bandaCtBlood ct_blood ≤ 2.5 := by
  unfold bandaCtBlood; split_ifs <;> norm_num

lemma bandaBmi_bounds (bmi : ℚ) : 0 ≤ bandaBmi bmi ∧ bandaBmi bmi ≤ 2.0 := by
  unfold bandaBmi; split_ifs <;> norm_num

lemma bandaGenero_bounds (genero : String) :
    0 ≤ bandaGenero genero ∧ bandaGenero genero ≤ 0.5 := by
  unfold bandaGenero; split_ifs <;> norm_num

lemma bandaTemperatura_bounds (temperatura : ℚ) :
    0 ≤ bandaTemperatura temperatura ∧ bandaTemperatura temperatura ≤ 2.0 := by
  unfold bandaTemperatura; split_ifs <;> norm_num

lemma bandaTos_bounds (tos : String) : 0 ≤ bandaTos tos ∧ bandaTos tos ≤ 1.5 := by
  unfold bandaTos; split_ifs <;> norm_num

lemma bandaEscalofrios_bounds (escalofrios : String) :
    0 ≤ bandaEscalofrios escalofrios ∧ bandaEscalofrios escalofrios ≤ 0.8 := by
  unfold bandaEscalofrios; split_ifs <;> norm_num

lemma bandaDolores_bounds (dolores : String) :
    0 ≤ bandaDolores dolores ∧ bandaDolores dolores ≤ 1.2 := by
  unfold bandaDolores; split_ifs <;> norm_num

lemma bandaVomitos_bounds (vomitos : String) :
    0 ≤ bandaVomitos vomitos ∧ bandaVomitos vomitos ≤ 0.7 := by
  unfold bandaVomitos; split_ifs <;> norm_num

lemma bandaRespiratoria_bounds (dificultad_respiratoria : String) :
    0 ≤ bandaRespiratoria dificultad_respiratoria ∧
      bandaRespiratoria dificultad_respiratoria ≤ 2.5 := by
  unfold bandaRespiratoria; split_ifs <;> norm_num

lemma bandaSaturacion_bounds (saturacion_oxigeno : ℚ) :
    0 ≤ bandaSaturacion saturacion_oxigeno ∧ bandaSaturacion saturacion_oxigeno ≤ 3.0 := by
  unfold bandaSaturacion; split_ifs <;> norm_num

/-! ## Normalizer lemmas -/

lemma backfill_length {α : Type} (c : Option (List α)) (n : ℕ) (f : ℕ → α)
    (h : colWf c n = true) : (backfill c n f).length = n := by
  cases c with
  | none => simp [backfill]
  | some l => simpa [backfill, colWf] using h

lemma colFull_backfill {α : Type} (c : Option (List α)) (n : ℕ) (f : ℕ → α)
    (h : colWf c n = true) : colFull (some (backfill c n f)) n = true := by
  simp [colFull, backfill_length c n f h]

lemma agesFinal_length (r : RandomSource) (t : Table)
    (hay : colWf t.age_years t.nrows = true) (ha : colWf t.age t.nrows = true) :
    (agesFinal r t).length = t.nrows := by
  unfold agesFinal
  cases hy : t.age_years with
  | some l => rw [hy] at hay; simpa [colWf] using hay
  | none => exact backfill_length _ _ _ ha

lemma agesFinal_bounds (r : RandomSource) (t : Table) (h : t.agesOk = true) :
    ∀ a ∈ agesFinal r t, 0 ≤ a ∧ a < 100 := by
  unfold agesFinal Table.agesOk at *
  cases hy : t.age_years with
  | some l =>
    rw [hy] at h
    simp only [List.all_eq_true, Bool.and_eq_true, decide_eq_true_eq] at h
    exact h
  | none =>
    rw [hy] at h
    unfold backfill
    cases hA : t.age with
    | some l =>
      rw [hA] at h
      simp only [List.all_eq_true, Bool.and_eq_true, decide_eq_true_eq] at h
      exact h
    | none =>
      intro a ha
      simp only [List.mem_map, List.mem_range] at ha
      obtain ⟨i, _, rfl⟩ := ha
      constructor
      · exact_mod_cast Nat.zero_le _
      · have hb : 18 + r.ageRndR i % 62 < 100 := by omega
        exact_mod_cast hb

lemma grupoEdad_isSome (a : ℚ) (h0 : 0 ≤ a) (h1 : a < 100) :
    (grupoEdad a).isSome = true := by
  unfold grupoEdad
  split_ifs with g1 g2 g3 g4
  · rfl
  · rfl
  · rfl
  · rfl
  · push_neg at g1 g2 g3 g4
    have k4 := g4 (g3 (g2 (g1 h0)))
    linarith

/-- Normalization populates every canonical field, provided the table is
well-formed and every age it will bucket lies in the declared `[0, 100)`
domain of the age-group bins. -/
lemma procesar_populated (r : RandomSource) (t : Table) (hwf : t.wf)
    (hages : t.agesOk = true) : (procesar_datos r t).populated := by
  obtain ⟨hpid, hout, hmort, hage, hay, hbmi, hct, hfev, hcou, hchi, hach, hvom,
    hgen, hgru, hclu⟩ := hwf
  have hmortlen : (match t.outcome with
      | some os => os.map (fun o => if o = "Death" then 1 else 0)
      | none => (List.range t.nrows).map (fun i => if r.mortR i then 1 else 0)).length
      = t.nrows := by
    cases ho : t.outcome with
    | some os => rw [ho] at hout; simp only [colWf] at hout
                 simpa using hout
    | none => simp
  have haglen : (agesFinal r t).length = t.nrows := agesFinal_length r t hay hage
  refine ⟨?_, ?_, ?_, ?_, ?_, ?_, ?_, ?_, ?_, ?_, ?_, ?_⟩
  · simpa [procesar_datos, colFull] using hmortlen
  · simpa [procesar_datos, colFull] using haglen
  · exact colFull_backfill _ _ _ hbmi
  · exact colFull_backfill _ _ _ hct
  · exact colFull_backfill _ _ _ hfev
  · exact colFull_backfill _ _ _ hcou
  · exact colFull_backfill _ _ _ hchi
  · exact colFull_backfill _ _ _ hach
  · exact colFull_backfill _ _ _ hvom
  · exact colFull_backfill _ _ _ hgen
  · exact colFull_backfill _ _ _ hclu
  · have hbounds := agesFinal_bounds r t hages
    simp only [procesar_datos, grupoCheck, List.length_map, haglen, beq_self_eq_true,
      Bool.true_and, List.all_eq_true]
    intro x hx
    simp only [List.mem_map] at hx
    obtain ⟨a, ha, rfl⟩ := hx
    exact grupoEdad_isSome a (hbounds a ha).1 (hbounds a ha).2

/-! ## Concrete instances used to evaluate the model -/

/-- A concrete random source (constant streams); `mortR` always draws 1. -/
def rZero : RandomSource :=
  { mortR := fun _ => true
    ageRndR := fun _ => 0
    bmiR := fun _ => 25
    ctR := fun _ => 22
    feverR := fun _ => false
    coughR := fun _ => false
    chillsR := fun _ => false
    achesR := fun _ => false
    vomitR := fun _ => false
    genderR := fun _ => false
    clusterR := fun _ => 0
    sAge := fun _ => 0
    sGender := fun _ => false
    sBmi := fun _ => 25
    sCt := fun _ => 22
    sFever := fun _ => false
    sCough := fun _ => false
    sChills := fun _ => false
    sAches := fun _ => false
    sVomit := fun _ => false
    sMort := fun _ => false }

/-- A one-row table in canonical form: all canonical columns present
(`outcome` absent, as in a table produced from `crear_datos_ejemplo` or
from a source without an outcome column), `mortalidad = [0]`,
`age_years = [50]`. -/
def tCanon : Table :=
  { paciente_id := some [1]
    outcome := none
    mortalidad := some [0]
    age := none
    age_years := some [50]
    bmi_calculado := some [25]
    ct_blood := some [22]
    fever := some ["no"]
    cough := some ["no"]
    chills := some ["no"]
    aches := some ["no"]
    vomit := some ["no"]
    gender := some ["f"]
    grupo_edad := some [some "40-59"]
    cluster := some [0]
    nrows := 1 }

/-- `tCanon` with the single age set to 100 — outside every right-open
age-group bin. -/
def t100 : Table := { tCanon with age_years := some [100] }

/-! ## Claims -/

/-- C1: for every input, the scorer computes the total as an additive
point system: each of the eleven factors contributes exactly the increment
of its highest applicable band (bands checked in descending severity
order, first match applied, 0 when no band matches), per the banded table
of §4.2, and the returned score is that sum rounded to 2 decimal
places. -/
theorem c1_score_suma_de_bandas (edad ct_blood bmi : ℚ) (genero : String)
    (temperatura : ℚ) (tos escalofrios dolores vomitos dificultad_respiratoria : String)
    (saturacion_oxigeno : ℚ) :
    calcular_score_riesgo edad ct_blood bmi genero temperatura tos escalofrios dolores
        vomitos dificultad_respiratoria saturacion_oxigeno
      = round2 (sumaBandas edad ct_blood bmi genero temperatura tos escalofrios dolores
        vomitos dificultad_respiratoria saturacion_oxigeno) :=
  calcular_eq_round2_suma edad ct_blood bmi genero temperatura tos escalofrios dolores
    vomitos dificultad_respiratoria saturacion_oxigeno

/-- C2: the risk category (with its recommendation) is determined from
the unclamped score by inclusive lower-bound thresholds checked
highest-first: ≥10 High risk (emergency), ≥7 Moderate-high
(hospitalization), ≥4 Moderate (observation), else Low (ambulatory);
the stated boundary values land exactly as claimed. -/
theorem c2_umbrales_categoria :
    (∀ s : ℚ, s ≥ 10 → clasificar s =
      ("ALTO RIESGO", "red", "🚨 URGENCIA MÉDICA INMEDIATA - POSIBLE INGRESO A UCI")) ∧
    (∀ s : ℚ, s ≥ 7 → s < 10 → clasificar s =
      ("RIESGO MODERADO-ALTO", "orange", "⚠️ HOSPITALIZACIÓN RECOMENDADA - MONITORIZACIÓN CONTINUA")) ∧
    (∀ s : ℚ, s ≥ 4 → s < 7 → clasificar s =
      ("RIESGO MODERADO", "yellow", "📋 OBSERVACIÓN HOSPITALARIA - EVALUACIÓN PERIÓDICA")) ∧
    (∀ s : ℚ, s < 4 → clasificar s =
      ("BAJO RIESGO", "green", "✅ SEGUIMIENTO AMBULATORIO - CONTROL DOMICILIARIO")) ∧
    (clasificar 10).1 = "ALTO RIESGO" ∧ (clasificar (999/100)).1 = "RIESGO MODERADO-ALTO" ∧
    (clasificar 7).1 = "RIESGO MODERADO-ALTO" ∧ (clasificar (699/100)).1 = "RIESGO MODERADO" ∧
    (clasificar 4).1 = "RIESGO MODERADO" ∧ (clasificar (399/100)).1 = "BAJO RIESGO" := by
  refine ⟨?_, ?_, ?_, ?_, by norm_num [clasificar], by norm_num [clasificar],
    by norm_num [clasificar], by norm_num [clasificar], by norm_num [clasificar],
    by norm_num [clasificar]⟩
  · intro s h
    unfold clasificar
    rw [if_pos h]
  · intro s h7 hlt
    unfold clasificar
    rw [if_neg (not_le.mpr hlt), if_pos h7]
  · intro s h4 hlt
    unfold clasificar
    rw [if_neg (by push_neg; linarith : ¬ s ≥ 10), if_neg (not_le.mpr hlt), if_pos h4]
  · intro s hlt
    unfold clasificar
    rw [if_neg (by push_neg; linarith : ¬ s ≥ 10), if_neg (by push_neg; linarith : ¬ s ≥ 7),
      if_neg (not_le.mpr hlt)]

/-- Witness for C2 at concrete scores. -/
theorem c2_umbrales_categoria_testigo :
    clasificar 12 = ("ALTO RIESGO", "red", "🚨 URGENCIA MÉDICA INMEDIATA - POSIBLE INGRESO A UCI") :=
  c2_umbrales_categoria.1 12 (by norm_num)

/-- C3: for every score, the probability estimate equals
`clamp(score / 15, 0.05, 0.95)`, hence always lies in `[0.05, 0.95]`
whatever the raw score; at score 0 it is the 0.05 floor, not 0. -/
theorem c3_probabilidad_clamp :
    (∀ s : ℚ, probabilidad s = min 0.95 (max 0.05 (s / 15)) ∧
      0.05 ≤ probabilidad s ∧ probabilidad s ≤ 0.95) ∧
    probabilidad 0 = 0.05 := by
  refine ⟨fun s => ⟨rfl, le_min (by norm_num) (le_max_left _ _), min_le_left _ _⟩, ?_⟩
  unfold probabilidad
  rw [zero_div, max_eq_left (by norm_num), min_eq_right (by norm_num)]

/-- C5: for every input and every single factor, moving that factor to a
band of higher severity (its `severidad` index, the order the bands are
listed in the §4.2 table row) while holding the other ten factors fixed
never decreases the total score. -/
theorem c5_monotonia_por_factor :
    (∀ (edad ct_blood bmi : ℚ) (genero : String) (temperatura : ℚ)
      (tos escalofrios dolores vomitos dificultad_respiratoria : String)
      (saturacion_oxigeno edad2 : ℚ), severidadEdad edad ≤ severidadEdad edad2 →
      calcular_score_riesgo edad ct_blood bmi genero temperatura tos escalofrios dolores
        vomitos dificultad_respiratoria saturacion_oxigeno ≤
      calcular_score_riesgo edad2 ct_blood bmi genero temperatura tos escalofrios dolores
        vomitos dificultad_respiratoria saturacion_oxigeno) ∧
    (∀ (edad ct_blood bmi : ℚ) (genero : String) (temperatura : ℚ)
      (tos escalofrios dolores vomitos dificultad_respiratoria : String)
      (saturacion_oxigeno ct2 : ℚ), severidadCtBlood ct_blood ≤ severidadCtBlood ct2 →
      calcular_score_riesgo edad ct_blood bmi genero temperatura tos escalofrios dolores
        vomitos dificultad_respiratoria saturacion_oxigeno ≤
      calcular_score_riesgo edad ct2 bmi genero temperatura tos escalofrios dolores
        vomitos dificultad_respiratoria saturacion_oxigeno) ∧
    (∀ (edad ct_blood bmi : ℚ) (genero : String) (temperatura : ℚ)
      (tos escalofrios dolores vomitos dificultad_respiratoria : String)
      (saturacion_oxigeno bmi2 : ℚ), severidadBmi bmi ≤ severidadBmi bmi2 →
      calcular_score_riesgo edad ct_blood bmi genero temperatura tos escalofrios dolores
        vomitos dificultad_respiratoria saturacion_oxigeno ≤
      calcular_score_riesgo edad ct_blood bmi2 genero temperatura tos escalofrios dolores
        vomitos dificultad_respiratoria saturacion_oxigeno) ∧
    (∀ (edad ct_blood bmi : ℚ) (genero : String) (temperatura : ℚ)
      (tos escalofrios dolores vomitos dificultad_respiratoria : String)
      (saturacion_oxigeno : ℚ) (genero2 : String),
      severidadGenero genero ≤ severidadGenero genero2 →
      calcular_score_riesgo edad ct_blood bmi genero temperatura tos escalofrios dolores
        vomitos dificultad_respiratoria saturacion_oxigeno ≤
      calcular_score_riesgo edad ct_blood bmi genero2 temperatura tos escalofrios dolores
        vomitos dificultad_respiratoria saturacion_oxigeno) ∧
    (∀ (edad ct_blood bmi : ℚ) (genero : String) (temperatura : ℚ)
      (tos escalofrios dolores vomitos dificultad_respiratoria : String)
      (saturacion_oxigeno temperatura2 : ℚ),
      severidadTemperatura temperatura ≤ severidadTemperatura temperatura2 →
      calcular_score_riesgo edad ct_blood bmi genero temperatura tos escalofrios dolores
        vomitos dificultad_respiratoria saturacion_oxigeno ≤
      calcular_score_riesgo edad ct_blood bmi genero temperatura2 tos escalofrios dolores
        vomitos dificultad_respiratoria saturacion_oxigeno) ∧
    (∀ (edad ct_blood bmi : ℚ) (genero : String) (temperatura : ℚ)
      (tos escalofrios dolores vomitos dificultad_respiratoria : String)
      (saturacion_oxigeno : ℚ) (tos2 : String), severidadTos tos ≤ severidadTos tos2 →
      calcular_score_riesgo edad ct_blood bmi genero temperatura tos escalofrios dolores
        vomitos dificultad_respiratoria saturacion_oxigeno ≤
      calcular_score_riesgo edad ct_blood bmi genero temperatura tos2 escalofrios dolores
        vomitos dificultad_respiratoria saturacion_oxigeno) ∧
    (∀ (edad ct_blood bmi : ℚ) (genero : String) (temperatura : ℚ)
      (tos escalofrios dolores vomitos dificultad_respiratoria : String)
      (saturacion_oxigeno : ℚ) (escalofrios2 : String),
      severidadEscalofrios escalofrios ≤ severidadEscalofrios escalofrios2 →
      calcular_score_riesgo edad ct_blood bmi genero temperatura tos escalofrios dolores
        vomitos dificultad_respiratoria saturacion_oxigeno ≤
      calcular_score_riesgo edad ct_blood bmi genero temperatura tos escalofrios2 dolores
        vomitos dificultad_respiratoria saturacion_oxigeno) ∧
    (∀ (edad ct_blood bmi : ℚ) (genero : String) (temperatura : ℚ)
      (tos escalofrios dolores vomitos dificultad_respiratoria : String)
      (saturacion_oxigeno : ℚ) (dolores2 : String),
      severidadDolores dolores ≤ severidadDolores dolores2 →
      calcular_score_riesgo edad ct_blood bmi genero temperatura tos escalofrios dolores
        vomitos dificultad_respiratoria saturacion_oxigeno ≤
      calcular_score_riesgo edad ct_blood bmi genero temperatura tos escalofrios dolores2
        vomitos dificultad_respiratoria saturacion_oxigeno) ∧
    (∀ (edad ct_blood bmi : ℚ) (genero : String) (temperatura : ℚ)
      (tos escalofrios dolores vomitos dificultad_respiratoria : String)
      (saturacion_oxigeno : ℚ) (vomitos2 : String),
      severidadVomitos vomitos ≤ severidadVomitos vomitos2 →
      calcular_score_riesgo edad ct_blood bmi genero temperatura tos escalofrios dolores
        vomitos dificultad_respiratoria saturacion_oxigeno ≤
      calcular_score_riesgo edad ct_blood bmi genero temperatura tos escalofrios dolores
        vomitos2 dificultad_respiratoria saturacion_oxigeno) ∧
    (∀ (edad ct_blood bmi : ℚ) (genero : String) (temperatura : ℚ)
      (tos escalofrios dolores vomitos dificultad_respiratoria : String)
      (saturacion_oxigeno : ℚ) (dificultad2 : String),
      severidadRespiratoria dificultad_respiratoria ≤ severidadRespiratoria dificultad2 →
      calcular_score_riesgo edad ct_blood bmi genero temperatura tos escalofrios dolores
        vomitos dificultad_respiratoria saturacion_oxigeno ≤
      calcular_score_riesgo edad ct_blood bmi genero temperatura tos escalofrios dolores
        vomitos dificultad2 saturacion_oxigeno) ∧
    (∀ (edad ct_blood bmi : ℚ) (genero : String) (temperatura : ℚ)
      (tos escalofrios dolores vomitos dificultad_respiratoria : String)
      (saturacion_oxigeno saturacion2 : ℚ),
      severidadSaturacion saturacion_oxigeno ≤ severidadSaturacion saturacion2 →
      calcular_score_riesgo edad ct_blood bmi genero temperatura tos escalofrios dolores
        vomitos dificultad_respiratoria saturacion_oxigeno ≤
      calcular_score_riesgo edad ct_blood bmi genero temperatura tos escalofrios dolores
        vomitos dificultad_respiratoria saturacion2) := by
  refine ⟨?_, ?_, ?_, ?_, ?_, ?_, ?_, ?_, ?_, ?_, ?_⟩ <;>
    (intro edad ct_blood bmi genero temperatura tos escalofrios dolores vomitos
      dificultad_respiratoria saturacion_oxigeno x2 h
     rw [calcular_eq_suma, calcular_eq_suma]
     unfold sumaBandas)
  · have hm := bandaEdad_mono h; linarith
  · have hm := bandaCtBlood_mono h; linarith
  · have hm := bandaBmi_mono h; linarith
  · have hm := bandaGenero_mono h; linarith
  · have hm := bandaTemperatura_mono h; linarith
  · have hm := bandaTos_mono h; linarith
  · have hm := bandaEscalofrios_mono h; linarith
  · have hm := bandaDolores_mono h; linarith
  · have hm := bandaVomitos_mono h; linarith
  · have hm := bandaRespiratoria_mono h; linarith
  · have hm := bandaSaturacion_mono h; linarith

/-- Witness for C5: raising the temperature band (37.0 → 39.0) at an
otherwise fixed input does not decrease the score. -/
theorem c5_monotonia_testigo :
    calcular_score_riesgo 45 22 25 "Femenino" 37 "Ninguna" "No" "Ninguno" "No" "Ninguna" 96 ≤
    calcular_score_riesgo 45 22 25 "Femenino" 39 "Ninguna" "No" "Ninguno" "No" "Ninguna" 96 :=
  c5_monotonia_por_factor.2.2.2.2.1 45 22 25 "Femenino" 37 "Ninguna" "No" "Ninguno" "No"
    "Ninguna" 96 39 (by norm_num [severidadTemperatura])

/-- C6 (amended): on the worked example (age 65, blood-cell-count 19,
BMI 36, male, temperature 39, severe cough, chills, severe pain,
vomiting, severe respiratory distress, saturation 88) each factor hits
its top band, so the factor sum is
3.0+2.5+2.0+0.5+2.0+1.5+0.8+1.2+0.7+2.5+3.0 — which totals 19.7, not the
23.2 the spec computes — the category is High risk and the probability is
clamped to 0.95. -/
theorem c6_ejemplo_maximo :
    sumaBandas 65 19 36 "Masculino" 39 "Severa" "Sí" "Severos" "Sí" "Severa" 88
      = 3.0 + 2.5 + 2.0 + 0.5 + 2.0 + 1.5 + 0.8 + 1.2 + 0.7 + 2.5 + 3.0 ∧
    calcular_score_riesgo 65 19 36 "Masculino" 39 "Severa" "Sí" "Severos" "Sí" "Severa" 88
      = 19.7 ∧
    (clasificar 19.7).1 = "ALTO RIESGO" ∧
    probabilidad 19.7 = 0.95 := by
  have hsum : sumaBandas 65 19 36 "Masculino" 39 "Severa" "Sí" "Severos" "Sí" "Severa" 88
      = 19.7 := by
    norm_num [sumaBandas, bandaEdad, bandaCtBlood, bandaBmi, bandaGenero, bandaTemperatura,
      bandaTos, bandaEscalofrios, bandaDolores, bandaVomitos, bandaRespiratoria,
      bandaSaturacion]
  refine ⟨by rw [hsum]; norm_num, ?_, by norm_num [clasificar], ?_⟩
  · rw [calcular_eq_suma, hsum]
  · unfold probabilidad
    rw [max_eq_right (by norm_num), min_eq_left (by norm_num)]

/-- Counterexample to C6 as stated: on the worked example the scorer does
not return 23.2 — the claimed increments sum to 19.7, and the claimed
total 23.2 is an arithmetic slip. -/
theorem c6_contraejemplo_23_2 :
    calcular_score_riesgo 65 19 36 "Masculino" 39 "Severa" "Sí" "Severos" "Sí" "Severa" 88
      ≠ 23.2 := by
  rw [calcular_eq_suma]
  norm_num [sumaBandas, bandaEdad, bandaCtBlood, bandaBmi, bandaGenero, bandaTemperatura,
    bandaTos, bandaEscalofrios, bandaDolores, bandaVomitos, bandaRespiratoria,
    bandaSaturacion]

/-- C10: for every input (any rational numeric values and any category
strings) the returned score lies in `[0, 19.7]`, 19.7 being the sum of
the top band increments of the eleven factors. -/
theorem c10_rango_score (edad ct_blood bmi : ℚ) (genero : String)
    (temperatura : ℚ) (tos escalofrios dolores vomitos dificultad_respiratoria : String)
    (saturacion_oxigeno : ℚ) :
    0 ≤ calcular_score_riesgo edad ct_blood bmi genero temperatura tos escalofrios dolores
      vomitos dificultad_respiratoria saturacion_oxigeno ∧
    calcular_score_riesgo edad ct_blood bmi genero temperatura tos escalofrios dolores
      vomitos dificultad_respiratoria saturacion_oxigeno ≤ 19.7 := by
  rw [calcular_eq_suma]
  unfold sumaBandas
  have h1 := bandaEdad_bounds edad
  have h2 := bandaCtBlood_bounds ct_blood
  have h3 := bandaBmi_bounds bmi
  have h4 := bandaGenero_bounds genero
  have h5 := bandaTemperatura_bounds temperatura
  have h6 := bandaTos_bounds tos
  have h7 := bandaEscalofrios_bounds escalofrios
  have h8 := bandaDolores_bounds dolores
  have h9 := bandaVomitos_bounds vomitos
  have h10 := bandaRespiratoria_bounds dificultad_respiratoria
  have h11 := bandaSaturacion_bounds saturacion_oxigeno
  constructor
  · linarith [h1.1, h2.1, h3.1, h4.1, h5.1, h6.1, h7.1, h8.1, h9.1, h10.1, h11.1]
  · linarith [h1.2, h2.2, h3.2, h4.2, h5.2, h6.2, h7.2, h8.2, h9.2, h10.2, h11.2]

/-- C8: the age-group bucket is always derived from the (ensured) age
column via the right-open bins of `pd.cut`, and the sample ages bucket as
claimed: 17→0-17, 18 and 39→18-39, 40 and 59→40-59, 60→60+. -/
theorem c8_grupo_edad :
    grupoEdad 17 = some "0-17" ∧ grupoEdad 18 = some "18-39" ∧ grupoEdad 39 = some "18-39" ∧
    grupoEdad 40 = some "40-59" ∧ grupoEdad 59 = some "40-59" ∧ grupoEdad 60 = some "60+" ∧
    (∀ (r : RandomSource) (t : Table),
      (procesar_datos r t).age_years = some (agesFinal r t) ∧
      (procesar_datos r t).grupo_edad = some ((agesFinal r t).map grupoEdad)) := by
  refine ⟨?_, ?_, ?_, ?_, ?_, ?_, fun r t => ⟨rfl, rfl⟩⟩ <;> norm_num [grupoEdad]

/-- C4: renormalizing the already-canonical one-row table `tCanon`
(mortalidad present as `[0]`, outcome absent) overwrites the present
`mortalidad` column with a fresh random draw (`[1]` under `rZero`):
`procesar_datos` redraws mortality whenever `outcome` is absent, even
when `mortalidad` already exists. -/
theorem c4_mortalidad_sobrescrita :
    tCanon.mortalidad = some [0] ∧ (procesar_datos rZero tCanon).mortalidad = some [1] :=
  ⟨rfl, rfl⟩

/-- C7 (amended): for every well-formed table whose effective age values
lie in the declared `[0, 100)` domain of the age-group bins, normalization
populates every canonical field of every record. -/
theorem c7_normalizacion_puebla (r : RandomSource) (t : Table) (hwf : t.wf)
    (hages : t.agesOk = true) : (procesar_datos r t).populated :=
  procesar_populated r t hwf hages

/-- Witness for C7 at the concrete table `tCanon`. -/
theorem c7_normalizacion_puebla_testigo :
    tCanon.wf ∧ tCanon.agesOk = true ∧ (procesar_datos rZero tCanon).populated :=
  ⟨by decide, by decide, c7_normalizacion_puebla rZero tCanon (by decide) (by decide)⟩

/-- Counterexample to C7 as stated: on the table `t100` (canonical, all
columns present, single age 100) normalization leaves the derived
age-group bucket null — 100 falls outside every right-open bin of
`pd.cut(..., right=False)` — so not every field is populated. -/
theorem c7_contraejemplo_edad_100 :
    ¬ (procesar_datos rZero t100).populated ∧
    (procesar_datos rZero t100).grupo_edad = some [none] :=
  ⟨by decide, rfl⟩

/-- C9: when the external read fails (any error), the loader never
propagates the failure: it returns the wholly synthetic dataset — the
normalized 500-row seeded generator output — which is fully populated. -/
theorem c9_carga_siempre_recupera (msg : String) (r : RandomSource) :
    cargar_datos (Except.error msg) r = crear_datos_ejemplo r ∧
    (cargar_datos (Except.error msg) r).nrows = 500 ∧
    (cargar_datos (Except.error msg) r).populated := by
  refine ⟨rfl, rfl, ?_⟩
  show (procesar_datos r (datosEjemploBase r)).populated
  apply procesar_populated
  · refine ⟨?_, ?_, ?_, ?_, ?_, ?_, ?_, ?_, ?_, ?_, ?_, ?_, ?_, ?_, ?_⟩ <;>
      simp [datosEjemploBase, colWf]
  · simp only [Table.agesOk, datosEjemploBase]
    simp only [List.all_eq_true, List.mem_map, List.mem_range, Bool.and_eq_true,
      decide_eq_true_eq]
    rintro a ⟨i, hi, rfl⟩
    refine ⟨?_, ?_⟩
    · exact_mod_cast Nat.zero_le _
    · have hb : 18 + r.sAge i % 62 < 100 := by omega
      exact_mod_cast hb
